import Mathlib

/-!
Verification of the TAO Galaxy subnet research & verification pipeline
specification against the repository code.

The report-serving layer (Express routers, the SubnetReport React component,
the Handlebars report generator and the report-text parsers) is embedded
directly from the TypeScript / JavaScript sources.  The five-phase Python
pipeline itself is absent from the repository snapshot (only its README and
TypeScript type declarations remain), so its operations are modelled from the
specification, as the doc comments below mark explicitly.
-/

namespace TaoGalaxy

/-! ### Scoring and recommendation (ResearchCoordinator, spec section 4.4) -/

/-- Modelled from the spec: `investmentRecommendation` is derived purely from
`overallScore` via the fixed threshold table of section 4.4 (also the pipeline
README, section "Investment Recommendations"); the scoring component of the
Python pipeline is missing from the snapshot. -/
def investmentRecommendation (overallScore : ℚ) : String :=
  if overallScore ≥ 4 then "Strong Buy"
  else if overallScore ≥ 7/2 then "Buy"
  else if overallScore ≥ 5/2 then "Hold"
  else if overallScore ≥ 2 then "Weak Hold"
  else "Avoid"

/-- Modelled from the spec: the five category scores of a ScoreRecord, each an
integer 1-5 (section 3, ScoreRecord). -/
structure CategoryScores where
  team_strength : ℕ
  product_viability : ℕ
  market_opportunity : ℕ
  execution_progress : ℕ
  risk_management : ℕ

/-- Modelled from the spec: fixed weight of the team_strength category (0.25). -/
def teamStrengthWeight : ℚ := 25/100

/-- Modelled from the spec: fixed weight of the product_viability category (0.25). -/
def productViabilityWeight : ℚ := 25/100

/-- Modelled from the spec: fixed weight of the market_opportunity category (0.20). -/
def marketOpportunityWeight : ℚ := 20/100

/-- Modelled from the spec: fixed weight of the execution_progress category (0.15). -/
def executionProgressWeight : ℚ := 15/100

/-- Modelled from the spec: fixed weight of the risk_management category (0.15). -/
def riskManagementWeight : ℚ := 15/100

/-- Modelled from the spec: the weighted sum of the five category scores
(section 3, ScoreRecord). -/
def weightedSum (c : CategoryScores) : ℚ :=
  c.team_strength * teamStrengthWeight + c.product_viability * productViabilityWeight
    + c.market_opportunity * marketOpportunityWeight
    + c.execution_progress * executionProgressWeight
    + c.risk_management * riskManagementWeight

/-- Modelled from the spec: rounding to one decimal place using round-half-up
(section 4.4). -/
def roundHalfUp1 (x : ℚ) : ℚ := (⌊10 * x + 1/2⌋ : ℚ) / 10

/-- Modelled from the spec: `overallScore` is the weighted sum of the category
scores, rounded to one decimal place using round-half-up (sections 3 and 4.4). -/
def overallScore (c : CategoryScores) : ℚ := roundHalfUp1 (weightedSum c)

/-- Each category score is an integer in 1-5 (spec section 3). -/
def validScores (c : CategoryScores) : Prop :=
  (1 ≤ c.team_strength ∧ c.team_strength ≤ 5)
    ∧ (1 ≤ c.product_viability ∧ c.product_viability ≤ 5)
    ∧ (1 ≤ c.market_opportunity ∧ c.market_opportunity ≤ 5)
    ∧ (1 ≤ c.execution_progress ∧ c.execution_progress ≤ 5)
    ∧ (1 ≤ c.risk_management ∧ c.risk_management ≤ 5)

instance (c : CategoryScores) : Decidable (validScores c) := by
  unfold validScores; infer_instance

/-! ### Source reconciliation (SourceReconciler, spec section 4.3)

Modelled from the spec: the SourceVerifier component of the Python pipeline is
missing from the snapshot; only the pipeline README (sections "Source
Verification System" and "Source Health Score") and the spec describe it.
The match-confidence scoring between a declared URL and a crawled URL is kept
as an explicit function parameter `conf`; the claims below concern the status
derivation and the candidate selection, not the numeric confidence formula. -/

/-- Modelled from the spec: verification status of one source channel. -/
inductive SourceStatus where
  | both
  | taostats_only
  | website_only
  | missing
deriving DecidableEq

/-- Modelled from the spec: the fixed set of source channel kinds. -/
inductive Channel where
  | website
  | github
  | discord
  | twitter
  | docs
deriving DecidableEq

/-- Modelled from the spec: the fixed channel list, in a fixed order. -/
def channelKinds : List Channel :=
  [Channel.website, Channel.github, Channel.discord, Channel.twitter, Channel.docs]

/-- Modelled from the spec: one SourceRecord per (subnet, channel kind). -/
structure SourceRecord where
  channel : Channel
  url : Option String
  status : SourceStatus
  matchConfidence : ℚ

/-- Modelled from the spec (section 4.3): status derivation for one channel,
given the declared URL (if any) and the crawled links classified to this
channel, in crawl order. -/
def deriveStatus (conf : String → String → ℚ) (declared : Option String)
    (crawled : List String) : SourceStatus :=
  match declared with
  | some d => if crawled.any (fun u => decide (0 < conf d u)) then .both else .taostats_only
  | none => if crawled.isEmpty then .missing else .website_only

/-- Modelled from the spec (section 4.3): among competing crawled candidates
(paired with their confidences, in crawl order) pick the one with maximum
confidence, ties broken in favor of the candidate discovered earliest. -/
def selectBest : List (String × ℚ) → Option (String × ℚ)
  | [] => none
  | p :: rest =>
    match selectBest rest with
    | none => some p
    | some q => if p.2 < q.2 then some q else some p

/-- Modelled from the spec: the stored `matchConfidence` is the confidence of
the selected best candidate, and 0 when there is no declared URL or no crawled
candidate. -/
def storedConfidence (conf : String → String → ℚ) (declared : Option String)
    (crawled : List String) : ℚ :=
  match declared with
  | some d =>
    match selectBest (crawled.map fun u => (u, conf d u)) with
    | some q => q.2
    | none => 0
  | none => 0

/-- Modelled from the spec: build the SourceRecord of one channel.  The stored
URL is the declared one when present, otherwise the first crawled candidate. -/
def mkSourceRecord (conf : String → String → ℚ) (ch : Channel)
    (declared : Option String) (crawled : List String) : SourceRecord :=
  { channel := ch
    url := declared.orElse fun _ => crawled.head?
    status := deriveStatus conf declared crawled
    matchConfidence := storedConfidence conf declared crawled }

/-- Modelled from the spec: `reconcile` produces one SourceRecord per channel
kind, recomputed fully from (declaredSources, crawledLinks) on every run. -/
def reconcileSubnet (conf : String → String → ℚ)
    (declaredSources : Channel → Option String)
    (crawledLinks : Channel → List String) : List SourceRecord :=
  channelKinds.map fun ch => mkSourceRecord conf ch (declaredSources ch) (crawledLinks ch)

/-! ### Health score (spec sections 3 and 4.3) -/

/-- Modelled from the spec: health score = verified / total × 100, and 0 (not
NaN, no division-by-zero error) when the total is 0. -/
def healthScoreOf (verifiedSources totalSources : ℕ) : ℚ :=
  if totalSources = 0 then 0 else (verifiedSources * 100 : ℚ) / totalSources

/-- Modelled from the spec: the per-subnet health summary owned by the
reconciler (spec section 3, SubnetHealthSummary).  `totalSources` counts the
non-missing records, matching the pipeline README example where the total is
the number of `both`, `taostats_only` and `website_only` records. -/
structure SubnetHealthSummary where
  totalSources : ℕ
  verifiedSources : ℕ
  healthScore : ℚ
  newSources : ℕ
  missingSources : ℕ

/-- Modelled from the spec: compute the health summary of a list of
SourceRecords. -/
def mkHealthSummary (records : List SourceRecord) : SubnetHealthSummary :=
  let verified := (records.filter fun r => r.status = SourceStatus.both).length
  let total := (records.filter fun r => r.status ≠ SourceStatus.missing).length
  { totalSources := total
    verifiedSources := verified
    healthScore := healthScoreOf verified total
    newSources := (records.filter fun r => r.status = SourceStatus.website_only).length
    missingSources := (records.filter fun r => r.status = SourceStatus.taostats_only).length }

/-! ### Dataset assembly (DatasetAssembler, spec section 4.5) -/

/-- Modelled from the spec: subnet identity as delivered by MetadataSource. -/
structure SubnetIdentity where
  netuid : ℕ
  name : String
deriving DecidableEq

/-- Modelled from the spec: the dashboard record emitted by the assembler; a
missing score is an explicit `none`, never an omitted record. -/
structure DashboardRecord where
  netuid : ℕ
  overall_score : Option ℚ
  scoring_status : String
deriving DecidableEq

/-- Modelled from the spec (section 4.5): assemble one dashboard record from a
subnet identity and its optional overall score. -/
def assembleRecord (s : SubnetIdentity) (score : Option ℚ) : DashboardRecord :=
  match score with
  | some v => { netuid := s.netuid, overall_score := some v, scoring_status := "completed" }
  | none => { netuid := s.netuid, overall_score := none, scoring_status := "pending" }

/-- Modelled from the spec (section 4.5): assemble emits one record per subnet,
even when the subnet has no ScoreRecord. -/
def assemble (subnets : List SubnetIdentity) (scores : ℕ → Option ℚ) :
    List DashboardRecord :=
  subnets.map fun s => assembleRecord s (scores s.netuid)

/-! ### Report retrieval (embedded from the repository sources) -/

/-- Response of the report route: HTTP 200 with JSON content (and the
`fallback` flag of the JSON body), or HTTP 404. -/
inductive RouteResponse where
  | ok (content : String) (fallback : Bool)
  | notFound
deriving DecidableEq

/-- Embedded from the reports router `router.get` handler for
`/subnet/:subnetId` (src/unnamed/part_004, lines 40-69).  `files id` models
the contents of `SN{id}.html` in the reports output directory (`none` when
`fs.existsSync` is false).  When the requested report does not exist and the
id is not "1", the route retargets the path to `SN1.html`; the JSON response
carries the content read plus a `fallback` flag; 404 is returned only when the
final path does not exist either. -/
def reportSubnetRoute (files : String → Option String) (subnetId : String) :
    RouteResponse :=
  let primary := files subnetId
  let chosen := if primary.isNone && subnetId != "1" then files "1" else primary
  match chosen with
  | some content => .ok content (subnetId != "1" && primary.isNone)
  | none => .notFound

/-- Outcome of the SubnetReport component data loading: a rendered report, or
the explicit "no report available" error state. -/
inductive LoadOutcome where
  | report (content : String)
  | noData
deriving DecidableEq

/-- Embedded from `SubnetReport.loadData` (src/unnamed/part_008, lines 83-119).
`load id` models `loadSubnetReportData(id)`.  If no content is found for the
requested subnet and it is not subnet 1, the component loads the subnet 1
report instead; only when that also yields nothing is the error state set. -/
def loadData (load : String → Option String) (subnetId : String) : LoadOutcome :=
  let d := load subnetId
  let d := if d.isNone && subnetId != "1" then load "1" else d
  match d with
  | some content => .report content
  | none => .noData

/-- A reports directory holding only the subnet 1 report; concrete input for
the fallback behavior of the report retrieval. -/
def onlySN1 : String → Option String :=
  fun id => if id = "1" then some "SN1 report" else none

/-! ### Report generation batch loop (embedded from
reports/subnet-reports/scripts/generate-all-reports.js) -/

/-- Embedded from `generateAllReports` (generate-all-reports.js, lines
383-391): the per-subnet loop.  `gen` models `this.generateSubnetReport`
(a thrown exception is `Except.error`); the `catch` branch logs the error and
continues with the next subnet; only successfully generated data is pushed
onto `allSubnetData`. -/
def generateAllReportsLoop {α : Type} (gen : String → Except String α) :
    List String → List α
  | [] => []
  | id :: rest =>
    match gen id with
    | .ok data => data :: generateAllReportsLoop gen rest
    | .error _ => generateAllReportsLoop gen rest

/-- A concrete generator where exactly subnet SN2 fails (as with a collaborator
timeout); the two other subnets generate their id as the report data. -/
def genSN2Fails : String → Except String String :=
  fun id => if id = "SN2" then .error "CollaboratorTimeout" else .ok id

/-! ### Handlebars data helpers (embedded from generate-all-reports.js) -/

/-- JavaScript `String.prototype.includes`: the pattern occurs as a contiguous
substring. -/
def jsIncludes (s pat : String) : Bool :=
  (List.range (s.data.length + 1)).any fun i => pat.data.isPrefixOf (s.data.drop i)

/-- Digits of a JavaScript regex capture, read as a number (`parseInt`). -/
def digitsToNat (ds : List Char) : ℕ :=
  ds.foldl (fun a c => a * 10 + (c.toNat - Char.toNat '0')) 0

/-- Whether the regex `\((\d+)\/5\)` of `extractRating` matches at position
`i`: an opening parenthesis, a non-empty digit run, then the characters
`/5)`. -/
def ratingPatternAt (cs : List Char) (i : ℕ) : Option ℕ :=
  match cs.drop i with
  | '(' :: rest =>
    let run := rest.takeWhile Char.isDigit
    if run ≠ [] ∧ "/5)".data.isPrefixOf (rest.drop run.length) then
      some (digitsToNat run)
    else none
  | _ => none

/-- Leftmost match of the regex `\((\d+)\/5\)`, returning the captured
number. -/
def firstRatingMatch (s : String) : Option ℕ :=
  (List.range s.data.length).findSome? (ratingPatternAt s.data)

/-- Embedded from `SubnetReportGenerator.extractRating`
(generate-all-reports.js, lines 281-285): a falsy rating string (null or
empty) yields 3; otherwise the first `(n/5)` group is parsed, defaulting to 3
when the pattern is absent. -/
def extractRating (ratingString : Option String) : ℕ :=
  match ratingString with
  | none => 3
  | some s =>
    if s = "" then 3
    else
      match firstRatingMatch s with
      | some n => n
      | none => 3

/-- Embedded from `SubnetReportGenerator.extractRatingText`
(generate-all-reports.js, lines 287-290): a falsy rating string yields
"Not Rated"; otherwise the text before the first opening parenthesis,
trimmed. -/
def extractRatingText (ratingString : Option String) : String :=
  match ratingString with
  | none => "Not Rated"
  | some s =>
    if s = "" then "Not Rated"
    else ((s.splitOn "(").headD "").trim

/-- Embedded from `SubnetReportGenerator.percentileToNumber`
(generate-all-reports.js, lines 292-300): known percentile labels map to their
numbers; a falsy or unrecognized string yields 50. -/
def percentileToNumber (percentileString : Option String) : ℕ :=
  match percentileString with
  | none => 50
  | some s =>
    if s = "" then 50
    else if jsIncludes s "Top 10%" then 90
    else if jsIncludes s "Top 25%" then 75
    else if jsIncludes s "Top 50%" then 50
    else if jsIncludes s "Bottom 50%" then 25
    else if jsIncludes s "Bottom 25%" then 10
    else 50

/-! ### Report text parser (embedded from the frontend reportParser module,
src/unnamed/part_009, lines 106-221) -/

/-- JavaScript word character, as matched by the regex class `\w`. -/
def isWordChar (c : Char) : Bool := c.isAlpha || c.isDigit || c == '_'

/-- Whether the literal part `Subnet (\d+)` of the title regex matches at
position `j`: the characters `Subnet` followed by a space and at least one
digit. -/
def subnetTokenAt (cs : List Char) (j : ℕ) : Bool :=
  "Subnet ".data.isPrefixOf (cs.drop j) &&
    (match cs.drop (j + 7) with
      | c :: _ => c.isDigit
      | [] => false)

/-- Whether `Subnet (\d+)` matches somewhere at or after position `p`. -/
def existsSubnetFrom (cs : List Char) (p : ℕ) : Bool :=
  (List.range cs.length).any fun j => decide (p ≤ j) && subnetTokenAt cs j

/-- JavaScript `titleLine.match(/(\w+).*Subnet (\d+)/)` restricted to the two
capture groups: the leftmost overall match is found, the leading `\w+` is
greedy (backtracking only as far as needed), the `.*` is greedy so the last
possible `Subnet (\d+)` occurrence is used, and the trailing `\d+` is the
maximal digit run. -/
def titleMatch (s : String) : Option (String × String) :=
  let cs := s.data
  match (List.range cs.length).find? (fun i =>
      isWordChar (cs.getD i ' ') && existsSubnetFrom cs (i + 1)) with
  | none => none
  | some i =>
    let maxRun := ((cs.drop i).takeWhile isWordChar).length
    let r := (((List.range maxRun).reverse.map (· + 1)).find? fun k =>
      existsSubnetFrom cs (i + k)).getD 1
    let j := (((List.range cs.length).filter fun j =>
      decide (i + r ≤ j) && subnetTokenAt cs j).getLast?).getD 0
    let digits := (cs.drop (j + 7)).takeWhile Char.isDigit
    some (String.mk ((cs.drop i).take r), String.mk digits)

/-- The `basic` block of SubnetReportData. -/
structure BasicInfo where
  name : String
  id : String
  mission : String
deriving DecidableEq

/-- The `team` block of SubnetReportData. -/
structure TeamInfo where
  doxxed : String
  founding : String
  background : String
  organizations : String
deriving DecidableEq

/-- The `problem` block of SubnetReportData. -/
structure ProblemInfo where
  mission : String
  realWorldProblem : String
  problemDescription : String
  estimatedTAM : String
  massAdoption : String
  keyChallenges : String
  mainCompetitors : String
  competitiveAdvantage : String
  subnetNecessity : String
  visionDifference : String
deriving DecidableEq

/-- The `revenue` block of SubnetReportData. -/
structure RevenueInfo where
  revenueStreams : String
  monetization : String
  developmentPhase : String
  generatingRevenue : String
  lifecyclePhase : String
deriving DecidableEq

/-- The `marketing` block of SubnetReportData. -/
structure MarketingInfo where
  channels : String
  frequency : String
  effort : String
  responsiveness : String
deriving DecidableEq

/-- The `development` block of SubnetReportData. -/
structure DevelopmentInfo where
  openSource : String
  repository : String
  updateActivity : String
  contributors : String
  practices : String
  roadmap : String
  documentation : String
  features : String
  thirdParty : String
deriving DecidableEq

/-- The SubnetReportData interface of the frontend report parser. -/
structure SubnetReportData where
  basic : BasicInfo
  team : TeamInfo
  problem : ProblemInfo
  revenue : RevenueInfo
  marketing : MarketingInfo
  development : DevelopmentInfo
deriving DecidableEq

/-- JavaScript `a || b` for strings: the empty string is falsy. -/
def jsOrDefault (s d : String) : String := if s = "" then d else s

/-- Embedded from the local `getSection` of `parseReportText`: the lines
strictly between the first line containing the start marker and the next line
after it containing the end marker (to the end of input when either marker is
absent; empty when the start marker is absent). -/
def getSection (lines : List String) (startMarker : String)
    (endMarker : Option String) : List String :=
  match lines.findIdx? (fun l => jsIncludes l startMarker) with
  | none => []
  | some startIndex =>
    let endIndex :=
      match endMarker with
      | none => lines.length
      | some em =>
        match (lines.drop (startIndex + 1)).findIdx? (fun l => jsIncludes l em) with
        | none => lines.length
        | some k => startIndex + 1 + k
    (lines.drop (startIndex + 1)).take (endIndex - (startIndex + 1))

/-- Embedded from the local `extractBulletPoints` of `parseReportText`: keep
the non-blank lines that contain no `##`, join them with spaces, strip all
`**` markers and trim. -/
def extractBulletPoints (sectionLines : List String) : String :=
  ((String.intercalate " " (sectionLines.filter fun line =>
      decide (0 < line.trim.length) && !jsIncludes line "###"
        && !jsIncludes line "##")).replace "**" "").trim

/-- Embedded from `parseReportText` (src/unnamed/part_009, lines 129-221): the
report-text parser of the frontend.  The input text is split on newlines; the
title line is the first line containing `Subnet` together with `64`, `1` or
`8`; name and id come from the regex `(\w+).*Subnet (\d+)`; a handful of
fields are extracted with `getSection` / `extractBulletPoints`; the remaining
fields are hardcoded string literals. -/
def parseReportText (text : String) : SubnetReportData :=
  let lines := text.splitOn "\n"
  let titleLine := lines.find? fun l =>
    jsIncludes l "Subnet" && (jsIncludes l "64" || jsIncludes l "1" || jsIncludes l "8")
  let subnetMatch := titleLine.bind titleMatch
  let subnetName :=
    match subnetMatch with
    | some m => jsOrDefault m.1 "Unknown"
    | none => "Unknown"
  let subnetId :=
    match subnetMatch with
    | some m => jsOrDefault m.2 "0"
    | none => "0"
  let missionSection := getSection lines "### What is" (some "### How It Works")
  let mission :=
    if 0 < missionSection.length then
      match missionSection.find? fun l =>
          jsIncludes l "decentralized" || jsIncludes l "platform" with
      | some l => jsOrDefault l.trim "Mission statement not found"
      | none => "Mission statement not found"
    else "Mission statement not found"
  { basic := { name := subnetName, id := subnetId, mission := mission }
    team :=
      { doxxed := extractBulletPoints
          (getSection lines "**Team:**" (some "**Organizational Structure:**"))
        founding := extractBulletPoints
          (getSection lines "**Namoray:**" (some "**Network:**"))
        background := "Information not found - specific educational and professional backgrounds not publicly disclosed on official sources"
        organizations := extractBulletPoints
          (getSection lines "**Organizational Structure:**" (some "### Current Scale")) }
    problem :=
      { mission := extractBulletPoints
          (getSection lines "### What is" (some "### How It Works"))
        realWorldProblem := extractBulletPoints
          (getSection lines "### Why It Matters" (some "### Key Products"))
        problemDescription := extractBulletPoints
          (getSection lines "### How It Works" (some "### Why It Matters"))
        estimatedTAM := extractBulletPoints
          (getSection lines "**For the Market:**" (some "### Key Products"))
        massAdoption := extractBulletPoints
          (getSection lines "**For Developers:**" (some "**For the Market:**"))
        keyChallenges := "Network effects against established players, technical complexity requiring Bittensor wallets, decentralized reliability concerns, developer education needs"
        mainCompetitors := "AWS Lambda, Google Cloud Functions (86.22% PaaS market share), Microsoft Azure Functions (4.10%), Cloudflare Workers, Vercel, Netlify Functions, RunPod"
        competitiveAdvantage := "85% cost reduction vs. AWS, instant deployment, decentralized infrastructure, diverse model access, AI-optimized performance, auto-staking revenue mechanism"
        subnetNecessity := "Problem solvable without blockchain (existing solutions exist), but blockchain provides unique decentralization, economic incentives, transparent pricing, and censorship resistance benefits"
        visionDifference := "Emphasizes decentralization vs. centralization, AI-first design, token economics with revenue-sharing, open-source approach, unified API, miner incentives, and community ownership over profit maximization" }
    revenue :=
      { revenueStreams := extractBulletPoints
          (getSection lines "Squad AI Subscriptions:" (some "Unit Economics"))
        monetization := "YES - Established paths through micropayments in TAO for compute usage, subscription revenue, API fees, and platform integration revenue"
        developmentPhase := "Production/Scaling Phase - Fully deployed with hundreds of H200/A6000 GPUs, processing 5+ billion AI tokens daily, enterprise-grade infrastructure"
        generatingRevenue := "YES - Confirmed active revenue from Squad AI subscriptions, compute usage, API access, and platform integrations with exponentially growing user base"
        lifecyclePhase := "Growth/Scaling Phase - Mature infrastructure with enterprise features, integrated with major platforms, processing billions of daily requests" }
    marketing :=
      { channels := "Official website (chutes.ai), Twitter/X (@chutes_ai), GitHub repositories under Rayon Labs. No dedicated Discord/Telegram found"
        frequency := "Moderate frequency focused on technical updates rather than marketing-heavy engagement, with active GitHub repository maintenance"
        effort := "Moderate effort with product-first, marketing-light approach prioritizing technical documentation and development communication over aggressive marketing"
        responsiveness := "Mixed - strong technical community engagement through GitHub, limited broader community channels, well-integrated into Bittensor ecosystem" }
    development :=
      { openSource := "YES - Fully open-source with MIT License"
        repository := "https://github.com/rayonlabs/chutes (primary), https://github.com/rayonlabs/chutes-miner, https://github.com/rayonlabs/chutes-api"
        updateActivity := "Moderate activity with evidence of regular updates and active maintenance across multiple repositories"
        contributors := "Core team active including Jon Durbin and namoray from Rayon Labs, operating 3 Bittensor subnets"
        practices := "Strong professional practices including Git version control, pytest testing, ruff linting, Poetry dependency management, Kubernetes/Helm deployment"
        roadmap := "Limited public roadmap information beyond basic platform status indicators"
        documentation := "Comprehensive documentation including API docs, OpenAPI schema, GraVal GPU validation library, Kubernetes guides, and architecture explanations"
        features := "Active development with AI model integrations (DeepSeek, Mistral), advanced GPU validation, Kubernetes infrastructure improvements, child hotkey support"
        thirdParty := "Growing ecosystem with community-developed tools (sn64-tools by minersunion), integration support for AI frameworks, public/private Docker image support" } }

/-! ### Report text parser of the API layer (embedded from
src/frontend/src/api/subnetReport.ts, lines 76-162) -/

/-- Length of the whitespace run at position `p` (the greedy extent of a
regex `\s*`). -/
def wsRunLen (cs : List Char) (p : ℕ) : ℕ :=
  ((cs.drop p).takeWhile Char.isWhitespace).length

/-- Descending range n, n-1, ..., 0: the backtracking order of a greedy
quantifier. -/
def descRange (n : ℕ) : List ℕ := (List.range (n + 1)).reverse

/-- Whether the alternation `(?:\(|AI|Subnet)` matches at position `d`. -/
def headerAltAt (cs : List Char) (d : ℕ) : Bool :=
  (match cs.drop d with
    | '(' :: _ => true
    | _ => false)
  || "AI".data.isPrefixOf (cs.drop d)
  || "Subnet".data.isPrefixOf (cs.drop d)

/-- The regex `##\s*(.+?)\s*(?:\(|AI|Subnet)` tried at start position `i`,
returning the first capture group: after the literal `##`, the first `\s*` is
greedy (backtracking from the longest whitespace run), `(.+?)` is lazy
(growing from one non-newline character), the second `\s*` is greedy, and the
alternation closes the match. -/
def headerMatchAt (cs : List Char) (i : ℕ) : Option (List Char) :=
  if "##".data.isPrefixOf (cs.drop i) then
    let a0 := i + 2
    (descRange (wsRunLen cs a0)).findSome? fun w1 =>
      let b := a0 + w1
      ((List.range (cs.length - b)).map (· + 1)).findSome? fun len =>
        if ((cs.drop b).take len).all (· ≠ '\n') then
          let c := b + len
          (descRange (wsRunLen cs c)).findSome? fun w2 =>
            if headerAltAt cs (c + w2) then some ((cs.drop b).take len) else none
        else none
  else none

/-- JavaScript `headerLine.match(/##\s*(.+?)\s*(?:\(|AI|Subnet)/)` restricted
to its first capture group: the leftmost position allowing a match wins. -/
def headerMatch (s : String) : Option String :=
  (List.range s.data.length).findSome? fun i => (headerMatchAt s.data i).map String.mk

/-- JavaScript `line.match(/^#+\s/)` as a Bool: the line starts with one or
more `#` followed by a whitespace character. -/
def startsHashWs (line : String) : Bool :=
  let hs := line.data.takeWhile (· == '#')
  decide (hs ≠ []) &&
    (match line.data.drop hs.length with
      | c :: _ => c.isWhitespace
      | [] => false)

/-- Embedded from the local `extractSection` of `parseReportFromText`
(subnetReport.ts, lines 79-95): the lines strictly between the first line
containing the start pattern and the next line after it containing the end
pattern are kept when non-blank and not markdown headings, joined with
spaces, stripped of `**` and trimmed; an absent start pattern or an empty
result yields the literal "Information not found".  The end pattern is
ignored when it is the empty string, mirroring the falsy guard in the
source. -/
def extractSection (lines : List String) (startPattern endPattern : String) :
    String :=
  match lines.findIdx? (fun l => jsIncludes l startPattern) with
  | none => "Information not found"
  | some startIndex =>
    let endIndex :=
      if endPattern = "" then lines.length
      else
        match (lines.drop (startIndex + 1)).findIdx? (fun l => jsIncludes l endPattern) with
        | none => lines.length
        | some k => startIndex + 1 + k
    let sectionLines := (lines.drop (startIndex + 1)).take (endIndex - (startIndex + 1))
    jsOrDefault
      (((String.intercalate " " (sectionLines.filter fun line =>
          decide (0 < line.trim.length) && !startsHashWs line)).replace "**" "").trim)
      "Information not found"

/-- Embedded from `parseReportFromText` (subnetReport.ts, lines 76-162): the
report-text parser of the API layer, taking the raw text and the requested
subnet id.  The subnet id only feeds `basic.id` and the `Subnet <id>` name
fallback; most other fields come from `extractSection` chains; the remaining
fields, the five contested problem fields among them, are hardcoded string
literals. -/
def parseReportFromText (text : String) (subnetId : String) : SubnetReportData :=
  let lines := text.splitOn "\n"
  let headerLine := lines.find? fun l =>
    jsIncludes l "#" && (jsIncludes l "Subnet" || jsIncludes l "AI")
  let subnetName :=
    match headerLine with
    | none => "Subnet " ++ subnetId
    | some hl =>
      match headerMatch hl with
      | some g1 => jsOrDefault g1.trim ("Subnet " ++ subnetId)
      | none => "Subnet " ++ subnetId
  let whatIsIndex := lines.findIdx? fun l => jsIncludes l "### What is"
  let mission :=
    match whatIsIndex with
    | none => "Mission statement not available"
    | some wi =>
      let missionLines := (lines.drop (wi + 1)).take 4
      match missionLines.find? fun l =>
          decide (50 < l.length) && jsIncludes l "decentralized" with
      | some l => (l.replace "**" "").trim
      | none => "Mission statement not available"
  { basic := { name := subnetName, id := subnetId, mission := mission }
    team :=
      { doxxed := jsOrDefault
          (extractSection lines "**Team:**" "**Organizational Structure:")
          "Information not found"
        founding := jsOrDefault (extractSection lines "**Namoray:**" "**Network:")
          (jsOrDefault (extractSection lines "- **Namoray:**" "**Organizational")
            "Information not found")
        background := "Information not found - specific educational and professional backgrounds not publicly disclosed on official sources"
        organizations := jsOrDefault
          (extractSection lines "**Organizational Structure:**" "Current Scale")
          (jsOrDefault (extractSection lines "**Company:**" "**Network")
            "Information not found") }
    problem :=
      { mission := jsOrDefault
          (extractSection lines "### What is" "### How It Works") mission
        realWorldProblem := jsOrDefault
          (extractSection lines "**For the Market:**" "### Key Products")
          (jsOrDefault (extractSection lines "- Addresses the" "serverless")
            "Information not found")
        problemDescription := jsOrDefault
          (extractSection lines "### How It Works" "### Why It Matters")
          (jsOrDefault (extractSection lines "1. **GPU Network:**" "### Why It Matters")
            "Information not found")
        estimatedTAM := jsOrDefault (extractSection lines "**TAM Size**" "### 2. Revenue")
          (jsOrDefault (extractSection lines "Market size:" "Growth rate")
            "$21.9B in 2024, projected to reach $44.7-90.9B by 2029-2033")
        massAdoption := jsOrDefault
          (extractSection lines "**For Developers:**" "**For the Market:")
          "Clear path demonstrated through developer-friendly APIs and cost advantages"
        keyChallenges := "Network effects against established players, technical complexity requiring Bittensor wallets, decentralized reliability concerns, developer education needs"
        mainCompetitors := "AWS Lambda, Google Cloud Functions (86.22% PaaS market share), Microsoft Azure Functions (4.10%), Cloudflare Workers, Vercel, Netlify Functions, RunPod"
        competitiveAdvantage := "85% cost reduction vs. AWS, instant deployment, decentralized infrastructure, diverse model access, AI-optimized performance, auto-staking revenue mechanism"
        subnetNecessity := "Problem solvable without blockchain (existing solutions exist), but blockchain provides unique decentralization, economic incentives, transparent pricing, and censorship resistance benefits"
        visionDifference := "Emphasizes decentralization vs. centralization, AI-first design, token economics with revenue-sharing, open-source approach, unified API, miner incentives, and community ownership over profit maximization" }
    revenue :=
      { revenueStreams := jsOrDefault
          (extractSection lines "**Revenue Streams (Non-Token)**" "**Unit Economics**")
          (jsOrDefault (extractSection lines "Squad AI Subscriptions:" "Unit Economics")
            "Multiple revenue streams including platform usage and subscriptions")
        monetization := "YES - Established paths through micropayments in TAO for compute usage, subscription revenue, API fees, and platform integration revenue"
        developmentPhase := jsOrDefault
          (extractSection lines "Product_Development_Phase" "Product_Generating")
          "Production/Scaling Phase - Fully deployed infrastructure"
        generatingRevenue := "YES - Confirmed active revenue from subscriptions, compute usage, API access, and platform integrations"
        lifecyclePhase := "Growth/Scaling Phase - Mature infrastructure with enterprise features" }
    marketing :=
      { channels := jsOrDefault
          (extractSection lines "**Main_Communication_Channels**" "**Communication_Frequency**")
          "Official website, Twitter/X, GitHub repositories"
        frequency := jsOrDefault
          (extractSection lines "**Communication_Frequency**" "**Communication_Effort**")
          "Moderate frequency focused on technical updates"
        effort := jsOrDefault
          (extractSection lines "**Communication_Effort**" "**Community_Responsiveness**")
          "Moderate effort with product-first approach"
        responsiveness := jsOrDefault
          (extractSection lines "**Community_Responsiveness**" "### VI_DEVELOPMENT")
          "Mixed - strong technical community engagement" }
    development :=
      { openSource := jsOrDefault
          (extractSection lines "**Codebase_Open_Source**" "**Main_Repository_Link**")
          "YES - Fully open-source with MIT License"
        repository := jsOrDefault
          (extractSection lines "**Main_Repository_Link**" "**Recent_Update_Activity**")
          "Repository information not found"
        updateActivity := jsOrDefault
          (extractSection lines "**Recent_Update_Activity**" "**Active_Contributors**")
          "Moderate activity with regular updates"
        contributors := jsOrDefault
          (extractSection lines "**Active_Contributors_Last_3_Months**" "**Professional_Development**")
          "Core team active with regular contributions"
        practices := jsOrDefault
          (extractSection lines "**Professional_Development_Practices**" "**Technical_Roadmap**")
          "Strong professional practices including version control, testing, and deployment"
        roadmap := jsOrDefault
          (extractSection lines "**Technical_Roadmap_Published**" "**Technical_Documents**")
          "Limited public roadmap information"
        documentation := jsOrDefault
          (extractSection lines "**Technical_Documents_Status**" "**Recent_Feature**")
          "Comprehensive documentation available"
        features := jsOrDefault
          (extractSection lines "**Recent_Feature_Releases**" "**Third_Party**")
          "Active development with regular feature releases"
        thirdParty := jsOrDefault
          (extractSection lines "**Third_Party_Developer_Activity**" "")
          "Growing ecosystem with community-developed tools" } }

end TaoGalaxy

/-! ## Claim theorems -/

/-- C1: for every overallScore, the investment recommendation follows the fixed
threshold table (4.0 and above Strong Buy, 3.5 and above Buy, 2.5 and above
Hold, 2.0 and above Weak Hold, anything lower Avoid), computed as a pure
function of the score alone; in particular 4.0, 3.99, 2.5, 2.49, 2.0 and 1.99
map to Strong Buy, Buy, Hold, Weak Hold, Weak Hold and Avoid respectively. -/
theorem C1_investment_recommendation_thresholds :
    (∀ s : ℚ,
      (TaoGalaxy.investmentRecommendation s = "Strong Buy" ↔ 4 ≤ s) ∧
      (TaoGalaxy.investmentRecommendation s = "Buy" ↔ 7/2 ≤ s ∧ s < 4) ∧
      (TaoGalaxy.investmentRecommendation s = "Hold" ↔ 5/2 ≤ s ∧ s < 7/2) ∧
      (TaoGalaxy.investmentRecommendation s = "Weak Hold" ↔ 2 ≤ s ∧ s < 5/2) ∧
      (TaoGalaxy.investmentRecommendation s = "Avoid" ↔ s < 2)) ∧
    TaoGalaxy.investmentRecommendation 4 = "Strong Buy" ∧
    TaoGalaxy.investmentRecommendation (399/100) = "Buy" ∧
    TaoGalaxy.investmentRecommendation (5/2) = "Hold" ∧
    TaoGalaxy.investmentRecommendation (249/100) = "Weak Hold" ∧
    TaoGalaxy.investmentRecommendation 2 = "Weak Hold" ∧
    TaoGalaxy.investmentRecommendation (199/100) = "Avoid" := by
  constructor
  · intro s
    unfold TaoGalaxy.investmentRecommendation
    split_ifs with h1 h2 h3 h4 <;>
      refine ⟨⟨fun hrec => ?_, fun hsc => ?_⟩, ⟨fun hrec => ?_, fun hsc => ?_⟩,
        ⟨fun hrec => ?_, fun hsc => ?_⟩, ⟨fun hrec => ?_, fun hsc => ?_⟩,
        ⟨fun hrec => ?_, fun hsc => ?_⟩⟩ <;>
      first
        | linarith
        | simp_all
  · refine ⟨?_, ?_, ?_, ?_, ?_, ?_⟩ <;> norm_num [TaoGalaxy.investmentRecommendation]

/-- C3: the health score is verifiedSources (the count of records with status
both) divided by totalSources times 100, and is exactly 0 when totalSources is
0 — an explicit guard, not a division by zero. -/
theorem C3_health_score_division_guard :
    (∀ v : ℕ, TaoGalaxy.healthScoreOf v 0 = 0) ∧
    (∀ v t : ℕ, t ≠ 0 → TaoGalaxy.healthScoreOf v t = (v * 100 : ℚ) / t) ∧
    (∀ records : List TaoGalaxy.SourceRecord,
      (TaoGalaxy.mkHealthSummary records).verifiedSources
          = (records.filter fun r => r.status = TaoGalaxy.SourceStatus.both).length ∧
      (TaoGalaxy.mkHealthSummary records).healthScore
          = TaoGalaxy.healthScoreOf (TaoGalaxy.mkHealthSummary records).verifiedSources
              (TaoGalaxy.mkHealthSummary records).totalSources ∧
      ((TaoGalaxy.mkHealthSummary records).totalSources = 0 →
        (TaoGalaxy.mkHealthSummary records).healthScore = 0)) := by
  refine ⟨fun v => by simp [TaoGalaxy.healthScoreOf], fun v t ht => by
    simp [TaoGalaxy.healthScoreOf, ht], fun records => ⟨rfl, rfl, fun h => ?_⟩⟩
  have h2 : (records.filter fun r => r.status ≠ TaoGalaxy.SourceStatus.missing).length = 0 := h
  show TaoGalaxy.healthScoreOf
      (records.filter fun r => r.status = TaoGalaxy.SourceStatus.both).length
      (records.filter fun r => r.status ≠ TaoGalaxy.SourceStatus.missing).length = 0
  rw [h2]
  simp [TaoGalaxy.healthScoreOf]

/-- C3 witness: a concrete non-degenerate health score computed by the
formula. -/
theorem C3_health_score_witness :
    TaoGalaxy.healthScoreOf 2 3 = (2 * 100 : ℚ) / 3 :=
  C3_health_score_division_guard.2.1 2 3 (by decide)

/-- C4 counterexample: with only the subnet 1 report present on disk,
requesting the missing subnet 5 report makes the route respond 200 with the
subnet 1 content (fallback flag set) instead of a 404, and makes the
SubnetReport component render the subnet 1 report — so the claim that report
retrieval surfaces not-found and never substitutes a fixed subnet report is
false on the code. -/
theorem C4_counterexample :
    TaoGalaxy.reportSubnetRoute TaoGalaxy.onlySN1 "5"
        = TaoGalaxy.RouteResponse.ok "SN1 report" true ∧
    TaoGalaxy.reportSubnetRoute TaoGalaxy.onlySN1 "5" ≠ TaoGalaxy.RouteResponse.notFound ∧
    TaoGalaxy.loadData TaoGalaxy.onlySN1 "5" = TaoGalaxy.LoadOutcome.report "SN1 report" := by
  refine ⟨by decide, by decide, by decide⟩

/-- C4 (amended): when the requested report exists it is served directly; when
it is missing and the subnet is not 1, both the route and the component fall
back to the subnet 1 report (the route marking the response with the fallback
flag); an explicit not-found / no-data state is surfaced only when the
requested subnet is 1 or the subnet 1 report is missing as well. -/
theorem C4_report_fallback_behavior (files : String → Option String) (id : String) :
    (∀ c, files id = some c →
      TaoGalaxy.reportSubnetRoute files id = TaoGalaxy.RouteResponse.ok c false ∧
      TaoGalaxy.loadData files id = TaoGalaxy.LoadOutcome.report c) ∧
    (files id = none → id ≠ "1" → ∀ c, files "1" = some c →
      TaoGalaxy.reportSubnetRoute files id = TaoGalaxy.RouteResponse.ok c true ∧
      TaoGalaxy.loadData files id = TaoGalaxy.LoadOutcome.report c) ∧
    (files id = none → files "1" = none →
      TaoGalaxy.reportSubnetRoute files id = TaoGalaxy.RouteResponse.notFound ∧
      TaoGalaxy.loadData files id = TaoGalaxy.LoadOutcome.noData) ∧
    (files id = none → id = "1" →
      TaoGalaxy.reportSubnetRoute files id = TaoGalaxy.RouteResponse.notFound ∧
      TaoGalaxy.loadData files id = TaoGalaxy.LoadOutcome.noData) := by
  refine ⟨fun c hc => ?_, fun hnone hne c hc => ?_, fun hnone h1 => ?_, fun hnone h1 => ?_⟩
  · constructor <;> simp [TaoGalaxy.reportSubnetRoute, TaoGalaxy.loadData, hc]
  · constructor <;>
      simp [TaoGalaxy.reportSubnetRoute, TaoGalaxy.loadData, hnone, hc, bne_iff_ne, hne]
  · by_cases hid : id = "1"
    · constructor <;>
        simp [TaoGalaxy.reportSubnetRoute, TaoGalaxy.loadData, hnone, h1, hid]
    · constructor <;>
        simp [TaoGalaxy.reportSubnetRoute, TaoGalaxy.loadData, hnone, h1, bne_iff_ne, hid]
  · subst h1
    constructor <;> simp [TaoGalaxy.reportSubnetRoute, TaoGalaxy.loadData, hnone]

/-- C4 witness: the amended behavior applied at the concrete reports directory
that holds only the subnet 1 report. -/
theorem C4_report_fallback_witness :
    TaoGalaxy.reportSubnetRoute TaoGalaxy.onlySN1 "5"
        = TaoGalaxy.RouteResponse.ok "SN1 report" true ∧
    TaoGalaxy.loadData TaoGalaxy.onlySN1 "5"
        = TaoGalaxy.LoadOutcome.report "SN1 report" :=
  (C4_report_fallback_behavior TaoGalaxy.onlySN1 "5").2.1 (by decide) (by decide)
    "SN1 report" (by decide)

/-- C5 counterexample: in a batch of three subnets where generating the SN2
report throws (as with a collaborator timeout), the generateAllReports loop
pushes no record for SN2: the final dataset holds 2 records for 3 requested
subnets and records no failure status, so the claim that the dataset contains
exactly one record per requested subnet, failed ones included, is false on the
code. -/
theorem C5_counterexample :
    TaoGalaxy.generateAllReportsLoop TaoGalaxy.genSN2Fails ["SN1", "SN2", "SN3"]
        = ["SN1", "SN3"] ∧
    (TaoGalaxy.generateAllReportsLoop TaoGalaxy.genSN2Fails ["SN1", "SN2", "SN3"]).length
        ≠ (["SN1", "SN2", "SN3"] : List String).length := by
  constructor <;> decide

/-- C5 (amended): an exception while generating one subnet report is caught
and does not terminate the batch — every successfully generated subnet,
before or after the failure, still contributes its record — but the failed
subnet is omitted from the dataset rather than recorded with a status: the
loop returns exactly the successfully generated records, in order. -/
theorem C5_batch_loop_isolation {α : Type} (gen : String → Except String α)
    (ids : List String) :
    TaoGalaxy.generateAllReportsLoop gen ids
        = ids.filterMap (fun id => (gen id).toOption) ∧
    (∀ id d, id ∈ ids → gen id = Except.ok d →
      d ∈ TaoGalaxy.generateAllReportsLoop gen ids) := by
  have hfm : ∀ l : List String,
      TaoGalaxy.generateAllReportsLoop gen l
        = l.filterMap (fun id => (gen id).toOption) := by
    intro l
    induction l with
    | nil => rfl
    | cons id rest ih =>
      cases h : gen id <;>
        simp [TaoGalaxy.generateAllReportsLoop, h, ih, Except.toOption]
  refine ⟨hfm ids, fun id d hmem hok => ?_⟩
  rw [hfm ids]
  exact List.mem_filterMap.mpr ⟨id, hmem, by simp [hok, Except.toOption]⟩

/-- C5 witness: in the concrete failing batch, the subnet processed after the
failure still contributes its record. -/
theorem C5_batch_loop_witness :
    ("SN3" : String) ∈
      TaoGalaxy.generateAllReportsLoop TaoGalaxy.genSN2Fails ["SN1", "SN2", "SN3"] :=
  (C5_batch_loop_isolation TaoGalaxy.genSN2Fails ["SN1", "SN2", "SN3"]).2 "SN3" "SN3"
    (by decide) (by rfl)

/-- C10: extractRating returns the mid-scale default 3 for a null rating
string and for any string without a `(n/5)` group; extractRatingText returns
"Not Rated" for null input; percentileToNumber returns 50 for a null string
and for any string containing none of the known percentile labels. -/
theorem C10_missing_analysis_defaults :
    TaoGalaxy.extractRating none = 3 ∧
    (∀ s : String, TaoGalaxy.firstRatingMatch s = none →
      TaoGalaxy.extractRating (some s) = 3) ∧
    TaoGalaxy.extractRatingText none = "Not Rated" ∧
    TaoGalaxy.percentileToNumber none = 50 ∧
    (∀ s : String,
      TaoGalaxy.jsIncludes s "Top 10%" = false →
      TaoGalaxy.jsIncludes s "Top 25%" = false →
      TaoGalaxy.jsIncludes s "Top 50%" = false →
      TaoGalaxy.jsIncludes s "Bottom 50%" = false →
      TaoGalaxy.jsIncludes s "Bottom 25%" = false →
      TaoGalaxy.percentileToNumber (some s) = 50) := by
  refine ⟨rfl, fun s h => ?_, rfl, rfl, fun s h1 h2 h3 h4 h5 => ?_⟩
  · by_cases hs : s = "" <;> simp [TaoGalaxy.extractRating, hs, h]
  · by_cases hs : s = "" <;>
      simp [TaoGalaxy.percentileToNumber, hs, h1, h2, h3, h4, h5]

/-- C10 witness: the defaults applied at concrete strings matching no
pattern. -/
theorem C10_missing_analysis_defaults_witness :
    TaoGalaxy.extractRating (some "Buy") = 3 ∧
    TaoGalaxy.percentileToNumber (some "No percentile given") = 50 :=
  ⟨C10_missing_analysis_defaults.2.1 "Buy" (by decide),
    C10_missing_analysis_defaults.2.2.2.2 "No percentile given"
      (by decide) (by decide) (by decide) (by decide) (by decide)⟩

/-- C2: overallScore is the weighted sum of the five integer category scores
with the fixed weights (0.25, 0.25, 0.20, 0.15, 0.15, summing to exactly 1),
rounded to one decimal place round-half-up, hence deterministically
recomputable from the category scores; for valid scores the result stays in
[1, 5]. -/
theorem C2_overall_score_formula :
    (TaoGalaxy.teamStrengthWeight + TaoGalaxy.productViabilityWeight
        + TaoGalaxy.marketOpportunityWeight + TaoGalaxy.executionProgressWeight
        + TaoGalaxy.riskManagementWeight = 1) ∧
    (∀ c : TaoGalaxy.CategoryScores,
      TaoGalaxy.overallScore c = TaoGalaxy.roundHalfUp1 (TaoGalaxy.weightedSum c)) ∧
    (∀ c : TaoGalaxy.CategoryScores, TaoGalaxy.validScores c →
      1 ≤ TaoGalaxy.overallScore c ∧ TaoGalaxy.overallScore c ≤ 5) := by
  refine ⟨by norm_num [TaoGalaxy.teamStrengthWeight, TaoGalaxy.productViabilityWeight,
    TaoGalaxy.marketOpportunityWeight, TaoGalaxy.executionProgressWeight,
    TaoGalaxy.riskManagementWeight], fun c => rfl, fun c hv => ?_⟩
  obtain ⟨⟨h1a, h1b⟩, ⟨h2a, h2b⟩, ⟨h3a, h3b⟩, ⟨h4a, h4b⟩, ⟨h5a, h5b⟩⟩ := hv
  have q1a : (1 : ℚ) ≤ c.team_strength := by exact_mod_cast h1a
  have q1b : (c.team_strength : ℚ) ≤ 5 := by exact_mod_cast h1b
  have q2a : (1 : ℚ) ≤ c.product_viability := by exact_mod_cast h2a
  have q2b : (c.product_viability : ℚ) ≤ 5 := by exact_mod_cast h2b
  have q3a : (1 : ℚ) ≤ c.market_opportunity := by exact_mod_cast h3a
  have q3b : (c.market_opportunity : ℚ) ≤ 5 := by exact_mod_cast h3b
  have q4a : (1 : ℚ) ≤ c.execution_progress := by exact_mod_cast h4a
  have q4b : (c.execution_progress : ℚ) ≤ 5 := by exact_mod_cast h4b
  have q5a : (1 : ℚ) ≤ c.risk_management := by exact_mod_cast h5a
  have q5b : (c.risk_management : ℚ) ≤ 5 := by exact_mod_cast h5b
  have hws1 : 1 ≤ TaoGalaxy.weightedSum c := by
    unfold TaoGalaxy.weightedSum TaoGalaxy.teamStrengthWeight
      TaoGalaxy.productViabilityWeight TaoGalaxy.marketOpportunityWeight
      TaoGalaxy.executionProgressWeight TaoGalaxy.riskManagementWeight
    linarith
  have hws5 : TaoGalaxy.weightedSum c ≤ 5 := by
    unfold TaoGalaxy.weightedSum TaoGalaxy.teamStrengthWeight
      TaoGalaxy.productViabilityWeight TaoGalaxy.marketOpportunityWeight
      TaoGalaxy.executionProgressWeight TaoGalaxy.riskManagementWeight
    linarith
  unfold TaoGalaxy.overallScore TaoGalaxy.roundHalfUp1
  constructor
  · have hfl : (10 : ℤ) ≤ ⌊10 * TaoGalaxy.weightedSum c + 1/2⌋ := by
      apply Int.le_floor.mpr
      push_cast
      linarith
    have hq : (10 : ℚ) ≤ (⌊10 * TaoGalaxy.weightedSum c + 1/2⌋ : ℚ) := by
      exact_mod_cast hfl
    linarith
  · have hfl : ⌊10 * TaoGalaxy.weightedSum c + 1/2⌋ < 51 := by
      apply Int.floor_lt.mpr
      push_cast
      linarith
    have h50 : ⌊10 * TaoGalaxy.weightedSum c + 1/2⌋ ≤ 50 := by omega
    have hq : (⌊10 * TaoGalaxy.weightedSum c + 1/2⌋ : ℚ) ≤ 50 := by exact_mod_cast h50
    linarith

/-- C2 witness: the formula applied to the concrete valid score record
(4, 4, 3, 3, 3), whose weighted sum 3.5 rounds to 3.5. -/
theorem C2_overall_score_witness :
    TaoGalaxy.validScores ⟨4, 4, 3, 3, 3⟩ ∧
    (1 ≤ TaoGalaxy.overallScore ⟨4, 4, 3, 3, 3⟩
      ∧ TaoGalaxy.overallScore ⟨4, 4, 3, 3, 3⟩ ≤ 5) ∧
    TaoGalaxy.overallScore ⟨4, 4, 3, 3, 3⟩ = 7/2 :=
  ⟨by decide, C2_overall_score_formula.2.2 ⟨4, 4, 3, 3, 3⟩ (by decide), by
    have hws : TaoGalaxy.weightedSum ⟨4, 4, 3, 3, 3⟩ = 7/2 := by
      norm_num [TaoGalaxy.weightedSum, TaoGalaxy.teamStrengthWeight,
        TaoGalaxy.productViabilityWeight, TaoGalaxy.marketOpportunityWeight,
        TaoGalaxy.executionProgressWeight, TaoGalaxy.riskManagementWeight]
    have hfl : ⌊(10 : ℚ) * (7/2) + 1/2⌋ = 35 := by
      rw [Int.floor_eq_iff]
      norm_num
    rw [TaoGalaxy.overallScore, hws, TaoGalaxy.roundHalfUp1, hfl]
    norm_num⟩

/-- C7: for every subnet, the assembled dashboard record is emitted even when
the subnet has no score; such a record reports no numeric overall score (the
field is none) and carries scoring_status pending; the dataset length always
equals the subnet count. -/
theorem C7_pending_records_emitted :
    ∀ (subnets : List TaoGalaxy.SubnetIdentity) (scores : ℕ → Option ℚ),
      (TaoGalaxy.assemble subnets scores).length = subnets.length ∧
      (∀ s ∈ subnets, scores s.netuid = none →
        TaoGalaxy.assembleRecord s (scores s.netuid) ∈ TaoGalaxy.assemble subnets scores ∧
        (TaoGalaxy.assembleRecord s (scores s.netuid)).overall_score = none ∧
        (TaoGalaxy.assembleRecord s (scores s.netuid)).scoring_status = "pending") := by
  intro subnets scores
  refine ⟨by simp [TaoGalaxy.assemble], fun s hs h => ⟨?_, ?_, ?_⟩⟩
  · exact List.mem_map.mpr ⟨s, hs, rfl⟩
  · rw [h]; rfl
  · rw [h]; rfl

/-- C7 witness: in a concrete two-subnet dataset where subnet 2 has no score,
its record is still emitted, with a none score and pending status. -/
theorem C7_pending_records_witness :
    TaoGalaxy.assembleRecord ⟨2, "Beta"⟩ none
        ∈ TaoGalaxy.assemble [⟨1, "Apex"⟩, ⟨2, "Beta"⟩]
            (fun n => if n = 1 then some 4 else none) ∧
    (TaoGalaxy.assembleRecord ⟨2, "Beta"⟩ none).overall_score = none ∧
    (TaoGalaxy.assembleRecord ⟨2, "Beta"⟩ none).scoring_status = "pending" :=
  (C7_pending_records_emitted [⟨1, "Apex"⟩, ⟨2, "Beta"⟩]
      (fun n => if n = 1 then some 4 else none)).2 ⟨2, "Beta"⟩ (by decide) (by decide)

/-- Helper: status derivation for a declared URL yields `both` exactly when a
crawled candidate matches with positive confidence. -/
theorem deriveStatus_some_both_iff (conf : String → String → ℚ) (d : String)
    (crawled : List String) :
    TaoGalaxy.deriveStatus conf (some d) crawled = TaoGalaxy.SourceStatus.both
      ↔ ∃ u ∈ crawled, 0 < conf d u := by
  simp only [TaoGalaxy.deriveStatus]
  by_cases hany : (crawled.any fun u => decide (0 < conf d u)) = true
  · rw [if_pos hany]
    simp only [List.any_eq_true, decide_eq_true_eq] at hany
    exact ⟨fun _ => hany, fun _ => rfl⟩
  · rw [if_neg hany]
    constructor
    · intro h
      exact absurd h (by decide)
    · rintro ⟨u, hu, hpos⟩
      exact absurd (List.any_eq_true.mpr ⟨u, hu, decide_eq_true hpos⟩) hany

/-- Helper: status derivation for a declared URL yields `taostats_only`
exactly when no crawled candidate matches with positive confidence. -/
theorem deriveStatus_some_taostats_iff (conf : String → String → ℚ) (d : String)
    (crawled : List String) :
    TaoGalaxy.deriveStatus conf (some d) crawled = TaoGalaxy.SourceStatus.taostats_only
      ↔ ∀ u ∈ crawled, conf d u ≤ 0 := by
  simp only [TaoGalaxy.deriveStatus]
  by_cases hany : (crawled.any fun u => decide (0 < conf d u)) = true
  · rw [if_pos hany]
    simp only [List.any_eq_true, decide_eq_true_eq] at hany
    obtain ⟨u, hu, hpos⟩ := hany
    constructor
    · intro h
      exact absurd h (by decide)
    · intro hall
      exact absurd hpos (not_lt.mpr (hall u hu))
  · rw [if_neg hany]
    simp only [List.any_eq_true, decide_eq_true_eq, not_exists, not_and] at hany
    push_neg at hany
    exact ⟨fun _ u hu => hany u hu, fun _ => rfl⟩

/-- Helper: status derivation without a declared URL, by cases on the crawled
candidate list. -/
theorem deriveStatus_none_cases (conf : String → String → ℚ)
    (crawled : List String) :
    (TaoGalaxy.deriveStatus conf none crawled = TaoGalaxy.SourceStatus.website_only
      ↔ crawled ≠ []) ∧
    (TaoGalaxy.deriveStatus conf none crawled = TaoGalaxy.SourceStatus.missing
      ↔ crawled = []) := by
  cases crawled <;> simp [TaoGalaxy.deriveStatus]

/-- C6: reconciliation produces exactly one SourceRecord per channel kind (the
record channels enumerate the fixed duplicate-free channel list), and each
record status follows the derivation table: with a declared URL, `both` when a
crawled candidate classifies to the channel with confidence above 0 and
`taostats_only` otherwise; without a declared URL, `website_only` when a
crawled candidate classifies to the channel and `missing` otherwise. -/
theorem C6_reconciliation_status :
    ∀ (conf : String → String → ℚ) (ds : TaoGalaxy.Channel → Option String)
      (cs : TaoGalaxy.Channel → List String),
      ((TaoGalaxy.reconcileSubnet conf ds cs).map (fun r => r.channel)
          = TaoGalaxy.channelKinds) ∧
      TaoGalaxy.channelKinds.Nodup ∧
      (∀ ch ∈ TaoGalaxy.channelKinds,
        TaoGalaxy.mkSourceRecord conf ch (ds ch) (cs ch)
          ∈ TaoGalaxy.reconcileSubnet conf ds cs) ∧
      (∀ ch d, ds ch = some d →
        ((TaoGalaxy.mkSourceRecord conf ch (ds ch) (cs ch)).status
            = TaoGalaxy.SourceStatus.both ↔ ∃ u ∈ cs ch, 0 < conf d u) ∧
        ((TaoGalaxy.mkSourceRecord conf ch (ds ch) (cs ch)).status
            = TaoGalaxy.SourceStatus.taostats_only ↔ ∀ u ∈ cs ch, conf d u ≤ 0)) ∧
      (∀ ch, ds ch = none →
        ((TaoGalaxy.mkSourceRecord conf ch (ds ch) (cs ch)).status
            = TaoGalaxy.SourceStatus.website_only ↔ cs ch ≠ []) ∧
        ((TaoGalaxy.mkSourceRecord conf ch (ds ch) (cs ch)).status
            = TaoGalaxy.SourceStatus.missing ↔ cs ch = [])) := by
  intro conf ds cs
  refine ⟨rfl, by decide, fun ch hch => List.mem_map.mpr ⟨ch, hch, rfl⟩,
    fun ch d hd => ?_, fun ch hd => ?_⟩
  · have hst : (TaoGalaxy.mkSourceRecord conf ch (ds ch) (cs ch)).status
        = TaoGalaxy.deriveStatus conf (ds ch) (cs ch) := rfl
    rw [hst, hd]
    exact ⟨deriveStatus_some_both_iff conf d (cs ch),
      deriveStatus_some_taostats_iff conf d (cs ch)⟩
  · have hst : (TaoGalaxy.mkSourceRecord conf ch (ds ch) (cs ch)).status
        = TaoGalaxy.deriveStatus conf (ds ch) (cs ch) := rfl
    rw [hst, hd]
    exact deriveStatus_none_cases conf (cs ch)

/-- C6 witness: with github declared as g and crawl candidates x and g under
an exact-match confidence function, the github record status is `both`. -/
theorem C6_reconciliation_witness :
    (TaoGalaxy.mkSourceRecord (fun a b => if a = b then (1 : ℚ) else 0)
        TaoGalaxy.Channel.github (some "g") ["x", "g"]).status
      = TaoGalaxy.SourceStatus.both :=
  ((C6_reconciliation_status (fun a b => if a = b then (1 : ℚ) else 0)
      (fun _ => some "g") (fun _ => ["x", "g"])).2.2.2.1
    TaoGalaxy.Channel.github "g" rfl).1.mpr (by decide)

/-- Helper: the best-candidate selection returns none exactly on the empty
candidate list. -/
theorem selectBest_eq_none_iff (l : List (String × ℚ)) :
    TaoGalaxy.selectBest l = none ↔ l = [] := by
  cases l with
  | nil => simp [TaoGalaxy.selectBest]
  | cons p rest =>
    simp only [TaoGalaxy.selectBest]
    cases h : TaoGalaxy.selectBest rest with
    | none => simp
    | some q =>
      by_cases hlt : p.2 < q.2 <;> simp [hlt]

/-- Helper: the selected candidate belongs to the list, its confidence is the
maximum, and every earlier candidate has strictly smaller confidence (so ties
are broken in favor of the candidate earliest in crawl order). -/
theorem selectBest_spec :
    ∀ (l : List (String × ℚ)) (u : String) (c : ℚ),
      TaoGalaxy.selectBest l = some (u, c) →
        (u, c) ∈ l ∧ (∀ q ∈ l, q.2 ≤ c) ∧
        ∃ n, l[n]? = some (u, c) ∧ ∀ q ∈ l.take n, q.2 < c := by
  intro l
  induction l with
  | nil => intro u c h; simp [TaoGalaxy.selectBest] at h
  | cons p rest ih =>
    intro u c h
    simp only [TaoGalaxy.selectBest] at h
    cases hr : TaoGalaxy.selectBest rest with
    | none =>
      rw [hr] at h
      have h2 : some p = some (u, c) := h
      have hrest : rest = [] := (selectBest_eq_none_iff rest).mp hr
      subst hrest
      cases h2
      exact ⟨List.mem_singleton_self _, by simp, 0, by simp, by simp⟩
    | some q =>
      rw [hr] at h
      have h2 : (if p.2 < q.2 then some q else some p) = some (u, c) := h
      by_cases hlt : p.2 < q.2
      · rw [if_pos hlt] at h2
        cases h2
        obtain ⟨hmem, hmax, n, hget, hpre⟩ := ih u c hr
        refine ⟨List.mem_cons_of_mem p hmem, ?_, n + 1, by simpa, ?_⟩
        · intro r hrm
          rcases List.mem_cons.mp hrm with hrp | hrr
          · subst hrp; exact le_of_lt hlt
          · exact hmax r hrr
        · intro r hrm
          rw [List.take_succ_cons] at hrm
          rcases List.mem_cons.mp hrm with hrp | hrr
          · subst hrp; exact hlt
          · exact hpre r hrr
      · rw [if_neg hlt] at h2
        cases h2
        obtain ⟨_, hmax, _, _, _⟩ := ih q.1 q.2 (by simpa using hr)
        refine ⟨List.mem_cons_self _ _, ?_, 0, by simp, by simp⟩
        intro r hrm
        rcases List.mem_cons.mp hrm with hrp | hrr
        · subst hrp; exact le_refl _
        · exact le_trans (hmax r hrr) (not_lt.mp hlt)

/-- C8: reconciliation is a deterministic pure function of
(declaredSources, crawledLinks) — two runs on equal inputs produce identical
SourceRecord lists — and the stored matchConfidence is that of the best
crawled candidate: maximal confidence, ties broken in favor of the candidate
discovered earliest in crawl order. -/
theorem C8_reconciler_deterministic_max :
    ∀ (conf : String → String → ℚ),
      (∀ (ds₁ ds₂ : TaoGalaxy.Channel → Option String)
          (cs₁ cs₂ : TaoGalaxy.Channel → List String), ds₁ = ds₂ → cs₁ = cs₂ →
        TaoGalaxy.reconcileSubnet conf ds₁ cs₁ = TaoGalaxy.reconcileSubnet conf ds₂ cs₂) ∧
      (∀ l : List (String × ℚ), TaoGalaxy.selectBest l = none ↔ l = []) ∧
      (∀ (l : List (String × ℚ)) (u : String) (c : ℚ),
        TaoGalaxy.selectBest l = some (u, c) →
          (u, c) ∈ l ∧ (∀ q ∈ l, q.2 ≤ c) ∧
          ∃ n, l[n]? = some (u, c) ∧ ∀ q ∈ l.take n, q.2 < c) ∧
      (∀ (d : String) (crawled : List String),
        TaoGalaxy.storedConfidence conf (some d) crawled
          = ((TaoGalaxy.selectBest (crawled.map fun u => (u, conf d u))).map
              Prod.snd).getD 0) := by
  intro conf
  refine ⟨fun ds₁ ds₂ cs₁ cs₂ hds hcs => by rw [hds, hcs],
    selectBest_eq_none_iff, selectBest_spec, fun d crawled => ?_⟩
  cases h : TaoGalaxy.selectBest (crawled.map fun u => (u, conf d u)) <;>
    simp [TaoGalaxy.storedConfidence, h]

/-- C8 witness: on the concrete candidate list a:1, b:3, c:3 the selection
returns b with confidence 3 — the maximum, with the tie against c broken in
favor of b, the earlier candidate. -/
theorem C8_reconciler_witness :
    (("b", (3 : ℚ)) ∈ [("a", (1 : ℚ)), ("b", 3), ("c", 3)]) ∧
    (∀ q ∈ [("a", (1 : ℚ)), ("b", 3), ("c", 3)], q.2 ≤ 3) ∧
    ∃ n, [("a", (1 : ℚ)), ("b", 3), ("c", 3)][n]? = some ("b", 3) ∧
      ∀ q ∈ ([("a", (1 : ℚ)), ("b", 3), ("c", 3)].take n), q.2 < 3 :=
  (C8_reconciler_deterministic_max (fun _ _ => 0)).2.2.1
    [("a", 1), ("b", 3), ("c", 3)] "b" 3 (by decide)

/-- C9: for every input text, the report-text parser returns a fully populated
SubnetReportData record in which keyChallenges, mainCompetitors,
competitiveAdvantage, subnetNecessity and visionDifference of the problem
block are fixed hardcoded strings describing subnet 64 (Chutes) — identical
for any two inputs, and independent of the requested subnet id: the same
holds for the sibling parser parseReportFromText, which takes a subnet id and
hardcodes the same five literals. -/
theorem C9_parser_hardcoded_problem_fields :
    ∀ text : String,
      (TaoGalaxy.parseReportText text).problem.keyChallenges
          = "Network effects against established players, technical complexity requiring Bittensor wallets, decentralized reliability concerns, developer education needs" ∧
      (TaoGalaxy.parseReportText text).problem.mainCompetitors
          = "AWS Lambda, Google Cloud Functions (86.22% PaaS market share), Microsoft Azure Functions (4.10%), Cloudflare Workers, Vercel, Netlify Functions, RunPod" ∧
      (TaoGalaxy.parseReportText text).problem.competitiveAdvantage
          = "85% cost reduction vs. AWS, instant deployment, decentralized infrastructure, diverse model access, AI-optimized performance, auto-staking revenue mechanism" ∧
      (TaoGalaxy.parseReportText text).problem.subnetNecessity
          = "Problem solvable without blockchain (existing solutions exist), but blockchain provides unique decentralization, economic incentives, transparent pricing, and censorship resistance benefits" ∧
      (TaoGalaxy.parseReportText text).problem.visionDifference
          = "Emphasizes decentralization vs. centralization, AI-first design, token economics with revenue-sharing, open-source approach, unified API, miner incentives, and community ownership over profit maximization" ∧
      (∀ other : String,
        (TaoGalaxy.parseReportText text).problem.keyChallenges
            = (TaoGalaxy.parseReportText other).problem.keyChallenges ∧
        (TaoGalaxy.parseReportText text).problem.mainCompetitors
            = (TaoGalaxy.parseReportText other).problem.mainCompetitors ∧
        (TaoGalaxy.parseReportText text).problem.competitiveAdvantage
            = (TaoGalaxy.parseReportText other).problem.competitiveAdvantage ∧
        (TaoGalaxy.parseReportText text).problem.subnetNecessity
            = (TaoGalaxy.parseReportText other).problem.subnetNecessity ∧
        (TaoGalaxy.parseReportText text).problem.visionDifference
            = (TaoGalaxy.parseReportText other).problem.visionDifference) ∧
      (∀ subnetId : String,
        (TaoGalaxy.parseReportFromText text subnetId).problem.keyChallenges
            = (TaoGalaxy.parseReportText text).problem.keyChallenges ∧
        (TaoGalaxy.parseReportFromText text subnetId).problem.mainCompetitors
            = (TaoGalaxy.parseReportText text).problem.mainCompetitors ∧
        (TaoGalaxy.parseReportFromText text subnetId).problem.competitiveAdvantage
            = (TaoGalaxy.parseReportText text).problem.competitiveAdvantage ∧
        (TaoGalaxy.parseReportFromText text subnetId).problem.subnetNecessity
            = (TaoGalaxy.parseReportText text).problem.subnetNecessity ∧
        (TaoGalaxy.parseReportFromText text subnetId).problem.visionDifference
            = (TaoGalaxy.parseReportText text).problem.visionDifference ∧
        (∀ (other otherId : String),
          (TaoGalaxy.parseReportFromText text subnetId).problem.keyChallenges
              = (TaoGalaxy.parseReportFromText other otherId).problem.keyChallenges ∧
          (TaoGalaxy.parseReportFromText text subnetId).problem.mainCompetitors
              = (TaoGalaxy.parseReportFromText other otherId).problem.mainCompetitors ∧
          (TaoGalaxy.parseReportFromText text subnetId).problem.competitiveAdvantage
              = (TaoGalaxy.parseReportFromText other otherId).problem.competitiveAdvantage ∧
          (TaoGalaxy.parseReportFromText text subnetId).problem.subnetNecessity
              = (TaoGalaxy.parseReportFromText other otherId).problem.subnetNecessity ∧
          (TaoGalaxy.parseReportFromText text subnetId).problem.visionDifference
              = (TaoGalaxy.parseReportFromText other otherId).problem.visionDifference)) :=
  fun _ => ⟨rfl, rfl, rfl, rfl, rfl, fun _ => ⟨rfl, rfl, rfl, rfl, rfl⟩,
    fun _ => ⟨rfl, rfl, rfl, rfl, rfl, fun _ _ => ⟨rfl, rfl, rfl, rfl, rfl⟩⟩⟩
